import Mathlib

/-!
Verification development for the modem-monitor supervisor daemon.

The definitions below are a shallow embedding of the C sources
(src/dms.c, src/netlink.c together with src/main.c, src/wds.c,
src/run_helpers.c and the headers).  Machine integers are modelled as
Nat (for unsigned values and enumerations) and Int (for C int status
codes).  RPC interactions with the modem, the kernel route socket and
the service bus are modelled by environment records that carry the
outcome each external call would return; the embedded functions then
mirror, branch for branch, the control flow the C code performs on
those outcomes.  The only loop that can fail to terminate (the
subnet-mask trailing-zero loop in mm_wds_get_runtime_settings) is
modelled with fuel, and divergence is represented by the value none.
-/

namespace ModemMonitor

/-- Status code eQCWWAN_ERR_NONE of the vendor SDK (success). -/
def eQCWWAN_ERR_NONE : Int := 0

/-- Status code eQCWWAN_ERR_GENERAL of the vendor SDK.  The exact
numeral is immaterial to the development; it only matters that it is
distinct from eQCWWAN_ERR_NONE. -/
def eQCWWAN_ERR_GENERAL : Int := 1

/-- Status code eQCWWAN_ERR_QMI_NO_EFFECT of the vendor SDK (the modem
reports that the request was a no-op).  Distinct from the other codes;
the numeral itself is immaterial. -/
def eQCWWAN_ERR_QMI_NO_EFFECT : Int := 1026

/-- Linux address family AF_INET. -/
def AF_INET : Nat := 2

/-- Linux address family AF_INET6. -/
def AF_INET6 : Nat := 10

/-- Operation mode MM_DMS_OPERATION_MODE_ONLINE from inc/mm_dms.h. -/
def MM_DMS_OPERATION_MODE_ONLINE : Nat := 0

/-- Operation mode MM_DMS_OPERATION_MODE_INVALID from inc/mm_dms.h. -/
def MM_DMS_OPERATION_MODE_INVALID : Nat := 255

/-! ## Device Management Service (src/dms.c) -/

/-- The static string table of mm_dms_get_operation_mode_string. -/
def mm_dms_operation_modes : List String :=
  ["Online",
   "Low power (airplane) mode",
   "Factory test mode",
   "Offline",
   "Resetting",
   "Power off",
   "Persistent low power (airplane) mode",
   "Mode-only low power"]

/-- Embedding of mm_dms_get_operation_mode_string (src/dms.c:58-78):
if the mode is at least the number of table entries the literal
"Invalid" is returned, otherwise the table entry at index mode.  The C
comparison `mode >= entries` is between an enum (converted to size_t,
hence non-negative) and size_t, which the Nat argument models. -/
def mm_dms_get_operation_mode_string (mode : Nat) : String :=
  if h : mode < mm_dms_operation_modes.length then
    mm_dms_operation_modes.get ⟨mode, h⟩
  else
    "Invalid"

/-- Outcome of one dms_GetPower QMI exchange, as unpacked by the SDK:
the transport status, the TLV result, and the two optional TLVs
(operation mode at presence bit 1, hardware-controlled mode at
presence bit 16). -/
structure GetPowerResp where
  sendStatus : Int
  Tlvresult : Int
  maskBit1 : Bool
  OperationMode : Nat
  maskBit16 : Bool
  HardwareControlledMode : Nat
deriving DecidableEq

/-- Embedding of mm_dms_get_power_sync (src/dms.c:80-107).  Returns
(status, mode, hardware_controlled_mode).  The out-parameters are
preset to MM_DMS_OPERATION_MODE_INVALID and false and are only
overwritten when the corresponding TLV is present. -/
def mm_dms_get_power_sync (r : GetPowerResp) : Int × Nat × Bool :=
  if r.sendStatus = eQCWWAN_ERR_NONE then
    if r.Tlvresult ≠ eQCWWAN_ERR_NONE then
      (r.Tlvresult, MM_DMS_OPERATION_MODE_INVALID, false)
    else
      (eQCWWAN_ERR_NONE,
       if r.maskBit1 then r.OperationMode else MM_DMS_OPERATION_MODE_INVALID,
       if r.maskBit16 then r.HardwareControlledMode != 0 else false)
  else
    (r.sendStatus, MM_DMS_OPERATION_MODE_INVALID, false)

/-- Environment for one call of mm_dms_set_power_sync: the response the
first GetPower would unpack, the outcome of the SetPower request, and
the response the read-back GetPower would unpack. -/
structure SetPowerEnv where
  get1 : GetPowerResp
  setSendStatus : Int
  setTlvresult : Int
  get2 : GetPowerResp
deriving DecidableEq

/-- Result of mm_dms_set_power_sync: the returned status, the value
left in the resulting_mode out-parameter, and whether a SetPower write
was issued to the modem. -/
structure SetPowerOutcome where
  status : Int
  resulting_mode : Nat
  set_issued : Bool
deriving DecidableEq

/-- Embedding of mm_dms_set_power_sync (src/dms.c:155-208).  The
resulting_mode out-parameter starts as MM_DMS_OPERATION_MODE_INVALID;
the current mode is queried first, and when it already equals the
request, or the modem reports a hardware-controlled mode, success is
returned without a write; otherwise the set is issued, the mode is
read back, and eQCWWAN_ERR_GENERAL is returned when the read-back
differs from the request. -/
def mm_dms_set_power_sync (env : SetPowerEnv) (requested_mode : Nat) :
    SetPowerOutcome :=
  let r1 := mm_dms_get_power_sync env.get1
  if r1.1 ≠ eQCWWAN_ERR_NONE then
    ⟨r1.1, MM_DMS_OPERATION_MODE_INVALID, false⟩
  else
    let current_mode := r1.2.1
    let hardware_controlled_mode := r1.2.2
    if current_mode = requested_mode ∨ hardware_controlled_mode then
      ⟨eQCWWAN_ERR_NONE, current_mode, false⟩
    else if env.setSendStatus = eQCWWAN_ERR_NONE then
      if env.setTlvresult ≠ eQCWWAN_ERR_NONE then
        ⟨env.setTlvresult, MM_DMS_OPERATION_MODE_INVALID, true⟩
      else
        let r2 := mm_dms_get_power_sync env.get2
        if r2.1 ≠ eQCWWAN_ERR_NONE then
          ⟨r2.1, MM_DMS_OPERATION_MODE_INVALID, true⟩
        else
          ⟨if r2.2.1 ≠ requested_mode then eQCWWAN_ERR_GENERAL
            else eQCWWAN_ERR_NONE,
           r2.2.1, true⟩
    else
      ⟨env.setSendStatus, MM_DMS_OPERATION_MODE_INVALID, true⟩

/-- C10: For every input value of the operation-mode enumeration,
mm_dms_get_operation_mode_string returns the table entry for modes 0
through 7 and the string "Invalid" for any value at least 8, never
indexing outside the 8-entry table (the embedding indexes with an
in-bounds proof, so totality is established by the type checker). -/
theorem operation_mode_string_total :
    (∀ mode : Nat, mode < 8 →
      mm_dms_get_operation_mode_string mode =
        mm_dms_operation_modes.getD mode "Invalid") ∧
    (∀ mode : Nat, 8 ≤ mode →
      mm_dms_get_operation_mode_string mode = "Invalid") := by
  constructor
  · decide
  · intro mode h
    have hlen : mm_dms_operation_modes.length = 8 := rfl
    unfold mm_dms_get_operation_mode_string
    rw [dif_neg]
    rw [hlen]
    omega

/-- Witness for C10 at the concrete modes 3 and 100. -/
theorem operation_mode_string_total_witness :
    mm_dms_get_operation_mode_string 3 = "Offline" ∧
    mm_dms_get_operation_mode_string 100 = "Invalid" := by
  constructor
  · have h := operation_mode_string_total.1 3 (by decide)
    simpa using h
  · exact operation_mode_string_total.2 100 (by decide)

/-- C4: SetPower first reads the current mode; when the current mode
equals the requested one, or the hardware-controlled flag is reported,
it returns success with resulting_mode equal to the current mode and
issues no write; otherwise it issues the set, reads the mode back,
returns the read-back value as resulting_mode, and returns the
eQCWWAN_ERR_GENERAL status exactly when the read-back differs from the
requested mode. -/
theorem set_power_read_check_write_readback :
    ∀ (env : SetPowerEnv) (requested current : Nat) (hw : Bool),
    mm_dms_get_power_sync env.get1 = (eQCWWAN_ERR_NONE, current, hw) →
    ((current = requested ∨ hw = true) →
      mm_dms_set_power_sync env requested =
        ⟨eQCWWAN_ERR_NONE, current, false⟩) ∧
    (current ≠ requested → hw = false →
      env.setSendStatus = eQCWWAN_ERR_NONE →
      env.setTlvresult = eQCWWAN_ERR_NONE →
      ∀ (cur2 : Nat) (hw2 : Bool),
        mm_dms_get_power_sync env.get2 = (eQCWWAN_ERR_NONE, cur2, hw2) →
        mm_dms_set_power_sync env requested =
          ⟨if cur2 ≠ requested then eQCWWAN_ERR_GENERAL else eQCWWAN_ERR_NONE,
           cur2, true⟩) := by
  intro env requested current hw h1
  constructor
  · intro hskip
    unfold mm_dms_set_power_sync
    rw [h1]
    simp only [eQCWWAN_ERR_NONE]
    cases hskip with
    | inl hc => simp [hc]
    | inr hh => simp [hh]
  · intro hne hhw hsend htlv cur2 hw2 h2
    unfold mm_dms_set_power_sync
    rw [h1]
    simp only [eQCWWAN_ERR_NONE] at *
    simp [hne, hhw, hsend, htlv, h2]

/-- Witness for C4: a hardware-locked modem (spec scenario S4, current
mode LOW_POWER with hardware_controlled set) makes SetPower skip the
write and report LOW_POWER, and a cooperative modem that reads back the
requested mode after the write yields success with a write issued. -/
theorem set_power_read_check_write_readback_witness :
    mm_dms_set_power_sync ⟨⟨0, 0, true, 1, true, 1⟩, 0, 0, ⟨0, 0, true, 1, true, 1⟩⟩ 0 =
      ⟨eQCWWAN_ERR_NONE, 1, false⟩ ∧
    mm_dms_set_power_sync ⟨⟨0, 0, true, 1, false, 0⟩, 0, 0, ⟨0, 0, true, 0, false, 0⟩⟩ 0 =
      ⟨eQCWWAN_ERR_NONE, 0, true⟩ := by
  constructor
  · exact (set_power_read_check_write_readback
      ⟨⟨0, 0, true, 1, true, 1⟩, 0, 0, ⟨0, 0, true, 1, true, 1⟩⟩ 0 1 true
      (by decide)).1 (Or.inr rfl)
  · have h := (set_power_read_check_write_readback
      ⟨⟨0, 0, true, 1, false, 0⟩, 0, 0, ⟨0, 0, true, 0, false, 0⟩⟩ 0 1 false
      (by decide)).2 (by decide) rfl rfl rfl 0 false (by decide)
    simpa using h

/-! ## WDS indication callback (src/wds.c) -/

/-- QMI message id eQMI_WDS_PKT_SRVC_STATUS_IND of the vendor SDK (the
numeral is immaterial; the callback only compares against it). -/
def eQMI_WDS_PKT_SRVC_STATUS_IND : Nat := 34

/-- One packet-service-status indication as the callback unpacks it:
whether unpack_wds_SLQSSetPacketSrvStatusCallback succeeded, the TLV
result, the presence bits of the connection-status field (bit 1), the
session-end reason (bit 16) and the verbose reason pair (bit 17), and
the raw field values of the unpacked structure. -/
structure PacketSrvStatusInd where
  unpack_ok : Bool
  Tlvresult : Int
  maskBit1 : Bool
  maskBit16 : Bool
  maskBit17 : Bool
  conn_status : Nat
  reconfigReqd : Nat
  sessionEndReason : Nat
  verboseSessnEndReasonType : Nat
  verboseSessnEndReason : Nat
deriving DecidableEq

/-- The portion of struct mm_wds_session the indication callback can
read or write: the stored session id and the teardown flag.  The
context pointer handed to the callback is modelled as an Option of
this state, none standing for a NULL context. -/
structure WdsSessionState where
  session_id : Nat
  teardown_requested : Bool
deriving DecidableEq

/-- Embedding of wds_indication_callback (src/wds.c:361-500).  Logging
is a no-op on supervisor state and is omitted.  For the
packet-service-status message the callback bails out on unpack
failure, a TLV error, or a missing connection-status field; it then
defaults the session-end reason and the verbose pair to 0 when their
presence bit is clear, and finally sets teardown_requested when the
context is non-null, the stored session id is nonzero, the connection
status is 1 (DISCONNECTED), and the disconnect is not attributable to
the host (session_end_reason 2, or verbose pair (3, 2000), each
counted only when present).  Every other path leaves the context
untouched. -/
def wds_indication_callback (msgid : Nat) (ind : PacketSrvStatusInd)
    (ctx : Option WdsSessionState) : Option WdsSessionState :=
  if msgid = eQMI_WDS_PKT_SRVC_STATUS_IND then
    if ¬ ind.unpack_ok then ctx
    else if ind.Tlvresult ≠ eQCWWAN_ERR_NONE then ctx
    else if ¬ ind.maskBit1 then ctx
    else
      let reason_present := ind.maskBit16
      let session_end_reason := if ind.maskBit16 then ind.sessionEndReason else 0
      let verbose_reason_present := ind.maskBit17
      let verbose_session_end_reason_type :=
        if ind.maskBit17 then ind.verboseSessnEndReasonType else 0
      let verbose_session_end_reason :=
        if ind.maskBit17 then ind.verboseSessnEndReason else 0
      match ctx with
      | none => none
      | some session =>
        if session.session_id ≠ 0 ∧ ind.conn_status = 1 ∧
            ¬ ((reason_present ∧ session_end_reason = 2) ∨
               (verbose_reason_present ∧
                 verbose_session_end_reason_type = 3 ∧
                 verbose_session_end_reason = 2000)) then
          some { session with teardown_requested := true }
        else
          some session
  else ctx

/-- C1 counterexample: a successfully parsed DISCONNECTED indication
with no reason fields, delivered to a session whose stored session_id
is 0, satisfies the condition of the claim (connection_status is
DISCONNECTED and no host-attributable reason is reported), yet the
callback leaves teardown_requested false: the claimed iff fails
because the code additionally requires a nonzero session id. -/
theorem wds_indication_filter_counterexample :
    ((⟨true, 0, true, false, false, 1, 0, 0, 0, 0⟩ : PacketSrvStatusInd).conn_status = 1 ∧
      ¬ (((⟨true, 0, true, false, false, 1, 0, 0, 0, 0⟩ : PacketSrvStatusInd).sessionEndReason = 2) ∨
         ((⟨true, 0, true, false, false, 1, 0, 0, 0, 0⟩ : PacketSrvStatusInd).verboseSessnEndReasonType = 3 ∧
          (⟨true, 0, true, false, false, 1, 0, 0, 0, 0⟩ : PacketSrvStatusInd).verboseSessnEndReason = 2000))) ∧
    wds_indication_callback eQMI_WDS_PKT_SRVC_STATUS_IND
      ⟨true, 0, true, false, false, 1, 0, 0, 0, 0⟩
      (some ⟨0, false⟩) = some ⟨0, false⟩ := by
  decide

/-- C1 (amended): for every successfully parsed packet-service-status
indication (unpack succeeded, TLV result NONE, connection-status field
present) delivered with a non-null context whose stored session_id is
nonzero and whose teardown flag is still clear, the callback sets
teardown_requested iff connection_status equals 1 (DISCONNECTED) and
the disconnect is not host-attributable: not (session_end_reason
present and equal to 2, or the verbose pair present and equal to
(3, 2000)).  The session id is untouched, so setting the flag is the
sole effect on supervisor state. -/
theorem wds_indication_filter_amended :
    ∀ (msgid : Nat) (ind : PacketSrvStatusInd) (s : WdsSessionState),
    msgid = eQMI_WDS_PKT_SRVC_STATUS_IND →
    ind.unpack_ok = true → ind.Tlvresult = eQCWWAN_ERR_NONE →
    ind.maskBit1 = true →
    s.session_id ≠ 0 → s.teardown_requested = false →
    wds_indication_callback msgid ind (some s) =
      some ⟨s.session_id,
        if ind.conn_status = 1 ∧
            ¬ ((ind.maskBit16 ∧ ind.sessionEndReason = 2) ∨
               (ind.maskBit17 ∧ ind.verboseSessnEndReasonType = 3 ∧
                 ind.verboseSessnEndReason = 2000)) then
          true
        else false⟩ := by
  intro msgid ind s hm hu ht hb1 hsid hflag
  subst hm
  obtain ⟨sid, flag⟩ := s
  simp only at hsid hflag
  subst hflag
  by_cases h16 : ind.maskBit16 <;> by_cases h17 : ind.maskBit17 <;>
    by_cases hc : ind.conn_status = 1 <;>
    by_cases hse : ind.sessionEndReason = 2 <;>
    by_cases hvt : ind.verboseSessnEndReasonType = 3 <;>
    by_cases hvr : ind.verboseSessnEndReason = 2000 <;>
    simp [wds_indication_callback, hu, ht, hb1, h16, h17, hc, hse, hvt,
      hvr, hsid]

/-- Witness for C1 (amended): a parsed DISCONNECTED indication with
session-end reason 7 on a live session (session_id 5) sets the flag. -/
theorem wds_indication_filter_amended_witness :
    wds_indication_callback eQMI_WDS_PKT_SRVC_STATUS_IND
      ⟨true, 0, true, true, false, 1, 0, 7, 0, 0⟩
      (some ⟨5, false⟩) = some ⟨5, true⟩ := by
  have h := wds_indication_filter_amended eQMI_WDS_PKT_SRVC_STATUS_IND
    ⟨true, 0, true, true, false, 1, 0, 7, 0, 0⟩ ⟨5, false⟩
    rfl rfl rfl rfl (by decide) rfl
  simpa using h

/-- C9: the callback only requests teardown for a non-null context with
a nonzero stored session id: it returns a NULL context unchanged, it
leaves a session with session_id 0 entirely unchanged (so a
DISCONNECTED indication before a session is established never requests
teardown), and when the session-end reason (respectively the verbose
reason pair) is absent, the raw values of those fields have no
influence on the outcome, so suppression applies only to fields that
are actually present. -/
theorem wds_indication_callback_guards :
    ∀ (msgid : Nat) (ind : PacketSrvStatusInd) (s : WdsSessionState),
    (wds_indication_callback msgid ind none = none) ∧
    (s.session_id = 0 → wds_indication_callback msgid ind (some s) = some s) ∧
    (ind.maskBit16 = false → ∀ r : Nat,
      wds_indication_callback msgid { ind with sessionEndReason := r } (some s) =
        wds_indication_callback msgid ind (some s)) ∧
    (ind.maskBit17 = false → ∀ t r : Nat,
      wds_indication_callback msgid
          { ind with verboseSessnEndReasonType := t,
                     verboseSessnEndReason := r } (some s) =
        wds_indication_callback msgid ind (some s)) := by
  intro msgid ind s
  refine ⟨?_, ?_, ?_, ?_⟩
  · unfold wds_indication_callback
    split_ifs <;> rfl
  · intro h0
    unfold wds_indication_callback
    split_ifs <;> simp_all
  · intro h16 r
    unfold wds_indication_callback
    simp [h16]
  · intro h17 t r
    unfold wds_indication_callback
    simp [h17]

/-- Witness for C9: concrete checks of all four guard properties. -/
theorem wds_indication_callback_guards_witness :
    wds_indication_callback eQMI_WDS_PKT_SRVC_STATUS_IND
        ⟨true, 0, true, false, false, 1, 0, 0, 0, 0⟩ none = none ∧
    wds_indication_callback eQMI_WDS_PKT_SRVC_STATUS_IND
        ⟨true, 0, true, false, false, 1, 0, 0, 0, 0⟩ (some ⟨0, false⟩) =
      some ⟨0, false⟩ ∧
    wds_indication_callback eQMI_WDS_PKT_SRVC_STATUS_IND
        ⟨true, 0, true, false, false, 1, 0, 2, 0, 0⟩ (some ⟨5, false⟩) =
      wds_indication_callback eQMI_WDS_PKT_SRVC_STATUS_IND
        ⟨true, 0, true, false, false, 1, 0, 0, 0, 0⟩ (some ⟨5, false⟩) ∧
    wds_indication_callback eQMI_WDS_PKT_SRVC_STATUS_IND
        ⟨true, 0, true, false, false, 1, 0, 0, 3, 2000⟩ (some ⟨5, false⟩) =
      wds_indication_callback eQMI_WDS_PKT_SRVC_STATUS_IND
        ⟨true, 0, true, false, false, 1, 0, 0, 0, 0⟩ (some ⟨5, false⟩) := by
  have h := wds_indication_callback_guards eQMI_WDS_PKT_SRVC_STATUS_IND
    ⟨true, 0, true, false, false, 1, 0, 0, 0, 0⟩ ⟨5, false⟩
  have h0 := wds_indication_callback_guards eQMI_WDS_PKT_SRVC_STATUS_IND
    ⟨true, 0, true, false, false, 1, 0, 0, 0, 0⟩ ⟨0, false⟩
  exact ⟨h.1, h0.2.1 rfl, h.2.2.1 rfl 2, h.2.2.2 rfl 3 2000⟩

/-! ## WDS runtime settings (src/wds.c, mm_wds_get_runtime_settings) -/

/-- 16-bit network-to-host byte swap, as ntohs performs on a
little-endian host. -/
def ntohs (x : Nat) : Nat := (x % 256) * 256 + (x / 256) % 256

/-- 32-bit network-to-host byte swap, as ntohl performs on a
little-endian host. -/
def ntohl (x : Nat) : Nat :=
  (x % 256) * 16777216 + ((x / 256) % 256) * 65536 +
    ((x / 65536) % 256) * 256 + (x / 16777216) % 256

/-- One unpacked wds_SLQSGetRuntimeSettings response: transport and
TLV status, and the optional TLVs the code inspects (presence bits 30,
32, 33, 37 and 38 together with the raw field values). -/
structure RuntimeSettingsResp where
  sendStatus : Int
  Tlvresult : Int
  maskBit30 : Bool
  IPv4 : Nat
  maskBit32 : Bool
  maskBit33 : Bool
  GWAddressV4 : Nat
  SubnetMaskV4 : Nat
  maskBit37 : Bool
  IPAddressV6 : List Nat
  IPV6PrefixLen : Nat
  maskBit38 : Bool
  gwAddressV6 : List Nat
  gwV6PrefixLen : Nat
deriving DecidableEq

/-- struct mm_wds_runtime_settings: the address and gateway (one field
set per family) and the prefix length. -/
structure RuntimeSettings where
  address_v4 : Nat
  address_v6 : List Nat
  gateway_v4 : Nat
  gateway_v6 : List Nat
  prefix_length : Int
deriving DecidableEq

/-- The all-zero runtime settings produced by the initial memset. -/
def RuntimeSettings.zero : RuntimeSettings := ⟨0, [], 0, [], 0⟩

/-- Everything mm_wds_get_runtime_settings communicates to its caller:
the returned status, the settings structure and the two presence
out-parameters, plus a ghost bit recording whether the v6
prefix-length disagreement log line was emitted. -/
structure RuntimeSettingsOut where
  status : Int
  settings : RuntimeSettings
  address_present : Bool
  gateway_present : Bool
  logged_v6_plen_mismatch : Bool
deriving DecidableEq

/-- The trailing-zero while loop of mm_wds_get_runtime_settings
(src/wds.c:121-124): while the mask is even, halve it and decrement
the prefix length.  The C loop has no bound; the Nat fuel argument
makes the embedding total, with none standing for nontermination
(fuel 33 is enough for every nonzero 32-bit mask, and for mask 0 the
loop provably returns none for every fuel). -/
def subnet_mask_loop : Nat → Nat → Int → Option Int
  | 0, _, _ => none
  | fuel + 1, mask, plen =>
    if mask % 2 = 1 then some plen
    else subnet_mask_loop fuel (mask / 2) (plen - 1)

/-- Embedding of mm_wds_get_runtime_settings (src/wds.c:80-171) for a
session of the given family.  Mirrors the TLV-by-TLV population of the
settings structure: bit 30 fills the v4 address; bits 32 and 33 fill
the v4 gateway and derive the prefix length from SubnetMaskV4 with the
trailing-zero loop starting at 32; bit 37 fills the v6 address and its
prefix length; bit 38 fills the v6 gateway and, when the already
stored prefix length is nonzero and differs from the gateway value,
logs the mismatch and keeps the stored value, otherwise overwrites it
with the gateway value.  A none result models the loop never
terminating. -/
def mm_wds_get_runtime_settings (family : Nat) (r : RuntimeSettingsResp) :
    Option RuntimeSettingsOut :=
  if r.sendStatus = eQCWWAN_ERR_NONE then
    if r.Tlvresult ≠ eQCWWAN_ERR_NONE then
      some ⟨r.Tlvresult, RuntimeSettings.zero, false, false, false⟩
    else
      let st0 := RuntimeSettings.zero
      let a1 : RuntimeSettings × Bool :=
        if r.maskBit30 ∧ family = AF_INET then
          ({ st0 with address_v4 := ntohl r.IPv4 }, true)
        else (st0, false)
      let g1 : Option (RuntimeSettings × Bool) :=
        if r.maskBit32 ∧ r.maskBit33 ∧ family = AF_INET then
          match subnet_mask_loop 33 r.SubnetMaskV4 32 with
          | none => none
          | some plen =>
            some ({ a1.1 with gateway_v4 := ntohl r.GWAddressV4,
                              prefix_length := plen }, true)
        else some (a1.1, false)
      match g1 with
      | none => none
      | some st2gw =>
        let a2 : RuntimeSettings × Bool :=
          if r.maskBit37 ∧ family = AF_INET6 then
            ({ st2gw.1 with address_v6 := r.IPAddressV6.map ntohs,
                            prefix_length := Int.ofNat r.IPV6PrefixLen }, true)
          else (st2gw.1, a1.2)
        let g2 : RuntimeSettings × Bool × Bool :=
          if r.maskBit38 ∧ family = AF_INET6 then
            let stg := { a2.1 with gateway_v6 := r.gwAddressV6.map ntohs }
            if a2.1.prefix_length ≠ 0 ∧
                a2.1.prefix_length ≠ Int.ofNat r.gwV6PrefixLen then
              (stg, true, true)
            else
              ({ stg with prefix_length := Int.ofNat r.gwV6PrefixLen },
               true, false)
          else (a2.1, st2gw.2, false)
        some ⟨eQCWWAN_ERR_NONE, g2.1, a2.2, g2.2.1, g2.2.2⟩
  else
    some ⟨r.sendStatus, RuntimeSettings.zero, false, false, false⟩

/-- The k-th legal contiguous IPv4 subnet mask: k high bits set,
32 - k low bits clear (k from 0 to 32). -/
def legal_v4_mask (k : Nat) : Nat := 2 ^ 32 - 2 ^ (32 - k)

/-- Population count, with fuel (64 is enough for any value below
2 to the 64). -/
def popcount_aux : Nat → Nat → Nat
  | 0, _ => 0
  | fuel + 1, n => if n = 0 then 0 else n % 2 + popcount_aux fuel (n / 2)

/-- Population count of a value below 2 to the 64. -/
def popcount (n : Nat) : Nat := popcount_aux 64 n

/-- A v4 runtime-settings response whose gateway TLV carries the legal
subnet mask 0.0.0.0. -/
def zero_mask_resp : RuntimeSettingsResp :=
  ⟨0, 0, true, 1, true, true, 2, 0, false, [], 0, false, [], 0⟩

/-- C3: for each of the 32 legal nonzero contiguous subnet masks the
trailing-zero loop derives exactly popcount(mask) as the prefix
length; but for the remaining legal mask 0x00000000 the loop never
terminates (none for every fuel), so GetRuntimeSettings diverges on a
v4 response carrying mask 0 instead of deriving popcount(0) = 0.  The
spec asserts the popcount law over all 33 legal masks, so the code is
wrong on mask 0. -/
theorem v4_mask_popcount_and_zero_mask_divergence :
    (∀ k : Nat, k < 33 → 1 ≤ k →
      subnet_mask_loop 33 (legal_v4_mask k) 32 =
        some (Int.ofNat (popcount (legal_v4_mask k)))) ∧
    (∀ (fuel : Nat) (plen : Int),
      subnet_mask_loop fuel (legal_v4_mask 0) plen = none) ∧
    mm_wds_get_runtime_settings AF_INET zero_mask_resp = none := by
  refine ⟨by decide, ?_, by decide⟩
  have h0 : legal_v4_mask 0 = 0 := by decide
  rw [h0]
  intro fuel
  induction fuel with
  | zero => intro plen; rfl
  | succ n ih =>
    intro plen
    simpa [subnet_mask_loop] using ih (plen - 1)

/-- Witness for C3 at the concrete mask 255.255.255.0: the derived
prefix length is popcount(0xFFFFFF00) = 24 (spec scenario S6). -/
theorem v4_mask_popcount_witness :
    subnet_mask_loop 33 (legal_v4_mask 24) 32 =
      some (Int.ofNat (popcount (legal_v4_mask 24))) ∧
    legal_v4_mask 24 = 0xFFFFFF00 ∧ popcount (legal_v4_mask 24) = 24 :=
  ⟨v4_mask_popcount_and_zero_mask_divergence.1 24 (by decide) (by decide),
   by decide, by decide⟩

/-- C8 counterexample: a v6 response whose address TLV reports prefix
length 0 and whose gateway TLV reports prefix length 64 has both TLVs
present and disagreeing, yet the code keeps the gateway value 64 (not
the address value 0) and logs no disagreement, because it treats a
stored prefix length of 0 as absent. -/
theorem v6_plen_disagreement_counterexample :
    ((⟨0, 0, false, 0, false, false, 0, 0, true, [0, 0, 0, 0, 0, 0, 0, 1], 0,
        true, [0, 0, 0, 0, 0, 0, 0, 2], 64⟩ : RuntimeSettingsResp).maskBit37 = true ∧
     (⟨0, 0, false, 0, false, false, 0, 0, true, [0, 0, 0, 0, 0, 0, 0, 1], 0,
        true, [0, 0, 0, 0, 0, 0, 0, 2], 64⟩ : RuntimeSettingsResp).maskBit38 = true ∧
     (⟨0, 0, false, 0, false, false, 0, 0, true, [0, 0, 0, 0, 0, 0, 0, 1], 0,
        true, [0, 0, 0, 0, 0, 0, 0, 2], 64⟩ : RuntimeSettingsResp).IPV6PrefixLen ≠
       (⟨0, 0, false, 0, false, false, 0, 0, true, [0, 0, 0, 0, 0, 0, 0, 1], 0,
          true, [0, 0, 0, 0, 0, 0, 0, 2], 64⟩ : RuntimeSettingsResp).gwV6PrefixLen) ∧
    (mm_wds_get_runtime_settings AF_INET6
        ⟨0, 0, false, 0, false, false, 0, 0, true, [0, 0, 0, 0, 0, 0, 0, 1], 0,
          true, [0, 0, 0, 0, 0, 0, 0, 2], 64⟩).map
      (fun o => (o.settings.prefix_length, o.logged_v6_plen_mismatch)) =
      some (64, false) := by
  decide

/-- C8 (amended): for every v6 runtime-settings response in which the
address TLV supplies a nonzero prefix length and the gateway TLV
supplies a different prefix length, the disagreement is logged and the
prefix length of the address is the one retained in the resulting
runtime settings (when the address TLV reports prefix length 0 the
gateway value is taken silently instead). -/
theorem v6_plen_disagreement_keeps_address_value :
    ∀ r : RuntimeSettingsResp,
    r.sendStatus = eQCWWAN_ERR_NONE → r.Tlvresult = eQCWWAN_ERR_NONE →
    r.maskBit37 = true → r.maskBit38 = true →
    r.IPV6PrefixLen ≠ 0 → r.IPV6PrefixLen ≠ r.gwV6PrefixLen →
    (mm_wds_get_runtime_settings AF_INET6 r).map
        (fun o => (o.settings.prefix_length, o.logged_v6_plen_mismatch,
          o.address_present, o.gateway_present)) =
      some (Int.ofNat r.IPV6PrefixLen, true, true, true) := by
  intro r hs ht h37 h38 hp0 hpne
  have hne1 : Int.ofNat r.IPV6PrefixLen ≠ 0 := by
    intro h; exact hp0 (by simpa using congrArg Int.toNat h)
  have hne2 : Int.ofNat r.IPV6PrefixLen ≠ Int.ofNat r.gwV6PrefixLen := by
    intro h; exact hpne (by simpa using congrArg Int.toNat h)
  simp [mm_wds_get_runtime_settings, hs, ht, h37, h38, AF_INET, AF_INET6,
    hne1, hne2]
  simp [hp0, hpne]

/-- Witness for C8 (amended): address prefix 64 against gateway prefix
56 keeps 64 and logs the mismatch. -/
theorem v6_plen_disagreement_keeps_address_value_witness :
    (mm_wds_get_runtime_settings AF_INET6
        ⟨0, 0, false, 0, false, false, 0, 0, true, [0, 0, 0, 0, 0, 0, 0, 1], 64,
          true, [0, 0, 0, 0, 0, 0, 0, 2], 56⟩).map
      (fun o => (o.settings.prefix_length, o.logged_v6_plen_mismatch,
        o.address_present, o.gateway_present)) =
      some (64, true, true, true) := by
  have h := v6_plen_disagreement_keeps_address_value
    ⟨0, 0, false, 0, false, false, 0, 0, true, [0, 0, 0, 0, 0, 0, 0, 1], 64,
      true, [0, 0, 0, 0, 0, 0, 0, 2], 56⟩
    rfl rfl rfl rfl (by decide) (by decide)
  simpa using h

/-! ## Host network manager (src/netlink.c) -/

/-- Capacity MAX_NETLINK_ADDRS of the address enumeration buffer. -/
def MAX_NETLINK_ADDRS : Nat := 126

/-- One rtnl address object as seen by collect_nonlink_addrs and the
reconciliation loop: its scope (link or not), its prefix length, the
byte length of its binary address and the binary address value. -/
structure CacheAddr where
  scope_link : Bool
  prefixlen : Int
  addr_len : Nat
  binary : Nat
deriving DecidableEq

/-- Embedding of collect_nonlink_addrs (src/netlink.c:266-279) folded
over the filtered cache contents: link-scope addresses are skipped;
other addresses are appended to the list while fewer than
MAX_NETLINK_ADDRS slots are used (the allocated counter), and the
count field is incremented regardless.  Returns (list, count). -/
def collect_nonlink_addrs (objs : List CacheAddr) : List CacheAddr × Nat :=
  objs.foldl
    (fun acc o =>
      if o.scope_link then acc
      else
        ((if acc.1.length < MAX_NETLINK_ADDRS then acc.1 ++ [o] else acc.1),
         acc.2 + 1))
    ([], 0)

/-- Outcomes of the netlink submissions
mm_netlink_ensure_v4_configuration_is_applied can make: the status
rtnl_addr_delete returns for the i-th loop iteration, the status of
mm_netlink_add_v4_address, and the status of
mm_netlink_change_v4_default_gateway. -/
structure V4ApplyEnv where
  deleteStatus : Nat → Int
  addStatus : Int
  routeStatus : Int

/-- Embedding of mm_netlink_ensure_v4_configuration_is_applied
(src/netlink.c:403-458).  The non-link-scope v4 addresses of the wwan
interface are enumerated; when the allocated slots are fewer than the
count (buffer overflow) the status variable is set to -1.  The loop
then walks the enumerated list: an entry matching the target
(prefix length, 4-byte address, same binary value) sets found_address,
every other entry is deleted with the status variable receiving each
delete status; if the target was not found the status variable
receives the add status, and if the status is then zero it receives
the default-route installation status. -/
def mm_netlink_ensure_v4_configuration_is_applied
    (cache_objs : List CacheAddr) (env : V4ApplyEnv)
    (address : Nat) (prefix_length : Int) (gateway_address : Nat) : Int :=
  let collected := collect_nonlink_addrs cache_objs
  let status0 : Int := if collected.1.length < collected.2 then -1 else 0
  let folded :=
    collected.1.foldl
      (fun (acc : Int × Bool × Nat) a =>
        if a.prefixlen = prefix_length ∧ a.addr_len = 4 ∧ a.binary = address then
          (acc.1, true, acc.2.2 + 1)
        else
          (env.deleteStatus acc.2.2, acc.2.1, acc.2.2 + 1))
      (status0, false, 0)
  let status1 := if ¬ folded.2.1 then env.addStatus else folded.1
  let _ := gateway_address
  if status1 = 0 then env.routeStatus else status1

/-- A cache holding 127 identical non-link-scope /32 addresses with
binary value 5, one more than the enumeration buffer capacity. -/
def c2_cache : List CacheAddr := List.replicate 127 ⟨false, 32, 4, 5⟩

/-- The environment in which every delete, the add and the route
installation succeed. -/
def c2_env : V4ApplyEnv := ⟨fun _ => 0, 0, 0⟩

set_option maxRecDepth 8192 in
/-- C2: when 127 non-link-scope v4 addresses are enumerated the buffer
(capacity 126) overflows, yet
mm_netlink_ensure_v4_configuration_is_applied returns 0 (success)
when none of them matches the target and the subsequent deletes, the
add and the route installation all succeed: the -1 overflow status is
overwritten by the later steps, contradicting the spec rule that
overflow is fatal for the iteration. -/
theorem ensure_v4_overflow_status_clobbered :
    (collect_nonlink_addrs c2_cache).2 > MAX_NETLINK_ADDRS ∧
    (collect_nonlink_addrs c2_cache).1.length < (collect_nonlink_addrs c2_cache).2 ∧
    mm_netlink_ensure_v4_configuration_is_applied c2_cache c2_env 7 32 9 = 0 := by
  decide

/-! ## Supervisor (src/main.c) -/

/-- Embedding of mm_start_session (src/run_helpers.c:150-201): set the
IP family preference, then start the data session; the first failing
status is returned, success otherwise.  The arguments are the statuses
the two modem operations would return. -/
def mm_start_session (set_pref_status start_data_status : Int) : Int :=
  if set_pref_status ≠ eQCWWAN_ERR_NONE then set_pref_status
  else start_data_status

/-- The stop-data-session handling shared by the teardown call sites
in run_up_ipv4 and run_up_ipv6 (src/main.c): a stop status other than
eQCWWAN_ERR_NONE and other than eQCWWAN_ERR_QMI_NO_EFFECT replaces the
iteration status and forces exit_requested; otherwise the prior status
and exit flag are kept. -/
def handle_stop_result (check status : Int) (exit_flag : Bool) : Int × Bool :=
  if check ≠ eQCWWAN_ERR_NONE ∧ check ≠ eQCWWAN_ERR_QMI_NO_EFFECT then
    (check, true)
  else
    (status, exit_flag)

/-- Statuses every external call of one Phase B iteration (the body of
the outer loop in src/main.c, together with run_up_ipv6, run_up_ipv4
and run_sessions_up) would return, in program order.  Int fields are
the returned statuses (0 is success); the rt presence Bools are the
address_present / gateway_present out-parameters of
mm_wds_get_runtime_settings; set_power_mode is the resulting_mode of
mm_dms_set_power_sync. -/
structure SupEnv where
  reload_link_cache1 : Int
  stop_chrony1 : Int
  stop_unbound1 : Int
  wwan_up : Int
  addr_flush : Int
  dms_init : Int
  set_power_status : Int
  set_power_mode : Nat
  wds6_init : Int
  set_pref6 : Int
  start_data6 : Int
  get_rt6_status : Int
  rt6_address_present : Bool
  rt6_gateway_present : Bool
  apply6 : Int
  wds4_init : Int
  set_pref4 : Int
  start_data4 : Int
  get_rt4_status : Int
  rt4_address_present : Bool
  rt4_gateway_present : Bool
  apply4 : Int
  start_unbound : Int
  wg_setconf : Int
  wg0_up : Int
  wg0_routes : Int
  start_chrony : Int
  stop4 : Int
  wds4_shutdown : Int
  stop6 : Int
  wds6_shutdown : Int
  dms_shutdown : Int
  reload_link_cache2 : Int
  wwan_down : Int
  wg0_down : Int
  stop_chrony2 : Int
  stop_unbound2 : Int

/-- Embedding of run_up_ipv4 (src/main.c).  The pair returned is the
status of the function and the value of the process-wide
exit_requested flag afterwards (exit0 on entry).  Mirrors the source:
WDS service attach failure forces exit; a start-session failure only
logs (the comment says the signal is likely too weak); missing
address or gateway yields status -1; a failure to apply the settings
forces exit; a failure to start unbound or chrony forces exit; a
wireguard-path failure does not force exit, and because the status of
mm_netlink_ensure_wg0_routes_are_applied is not assigned to the status
variable in the source, the status kept in that branch is the status
of the last assigned call; the monitor loop run_sessions_up returns 0;
the stop-session result is filtered through handle_stop_result; a WDS
shutdown failure forces exit and replaces the status. -/
def run_up_ipv4 (env : SupEnv) (exit0 : Bool) : Int × Bool :=
  if env.wds4_init ≠ 0 then (env.wds4_init, true)
  else
    let inner :=
      if mm_start_session env.set_pref4 env.start_data4 = 0 then
        let after_apply :=
          if env.get_rt4_status ≠ 0 then (env.get_rt4_status, exit0)
          else if ¬ env.rt4_address_present ∨ ¬ env.rt4_gateway_present then
            (-1, exit0)
          else if env.apply4 = 0 then
            if env.start_unbound ≠ 0 then (env.start_unbound, true)
            else
              let wg_status :=
                if env.wg_setconf ≠ 0 then env.wg_setconf else env.wg0_up
              if env.wg_setconf ≠ 0 ∨ env.wg0_up ≠ 0 ∨ env.wg0_routes ≠ 0 then
                (wg_status, exit0)
              else if env.start_chrony ≠ 0 then (env.start_chrony, true)
              else (0, exit0)
          else (env.apply4, true)
        handle_stop_result env.stop4 after_apply.1 after_apply.2
      else (mm_start_session env.set_pref4 env.start_data4, exit0)
    if env.wds4_shutdown ≠ 0 then (env.wds4_shutdown, true)
    else inner

/-- Embedding of run_up_ipv6 (src/main.c), structured like
run_up_ipv4: after the v6 session is up and its settings applied, the
v4 leg run_up_ipv4 runs; the v6 stop-session result is filtered
through handle_stop_result and a WDS shutdown failure forces exit. -/
def run_up_ipv6 (env : SupEnv) (exit0 : Bool) : Int × Bool :=
  if env.wds6_init ≠ 0 then (env.wds6_init, true)
  else
    let inner :=
      if mm_start_session env.set_pref6 env.start_data6 = 0 then
        let after_apply :=
          if env.get_rt6_status ≠ 0 then (env.get_rt6_status, exit0)
          else if ¬ env.rt6_address_present ∨ ¬ env.rt6_gateway_present then
            (-1, exit0)
          else if env.apply6 = 0 then run_up_ipv4 env exit0
          else (env.apply6, true)
        handle_stop_result env.stop6 after_apply.1 after_apply.2
      else (mm_start_session env.set_pref6 env.start_data6, exit0)
    if env.wds6_shutdown ≠ 0 then (env.wds6_shutdown, true)
    else inner

/-- Embedding of one iteration of the outer Phase B loop (the while
body of the function the source calls initialize, src/main.c).
Returns (status, exit_requested afterwards, whether the iteration
broke out of the loop).  Failures before the session bring-up break
out with the failing status; a non-ONLINE resulting mode breaks out
with -1; after run_up_ipv6 the teardown runs: DMS shutdown, link-cache
reload and the two interface-down calls break on failure, while a
failing stop of chrony.service or unbound.service during teardown
records the failure as the status and forces exit_requested without
breaking. -/
def phase_b_iteration (env : SupEnv) (exit0 : Bool) : Int × Bool × Bool :=
  if env.reload_link_cache1 ≠ 0 then (env.reload_link_cache1, exit0, true)
  else if env.stop_chrony1 ≠ 0 then (env.stop_chrony1, exit0, true)
  else if env.stop_unbound1 ≠ 0 then (env.stop_unbound1, exit0, true)
  else if env.wwan_up ≠ 0 then (env.wwan_up, exit0, true)
  else if env.addr_flush ≠ 0 then (env.addr_flush, exit0, true)
  else if env.dms_init ≠ 0 then (env.dms_init, exit0, true)
  else if env.set_power_status ≠ 0 then (env.set_power_status, exit0, true)
  else if env.set_power_mode ≠ MM_DMS_OPERATION_MODE_ONLINE then
    (-1, exit0, true)
  else
    let r := run_up_ipv6 env exit0
    if env.dms_shutdown ≠ 0 then (env.dms_shutdown, r.2, true)
    else if env.reload_link_cache2 ≠ 0 then (env.reload_link_cache2, r.2, true)
    else if env.wwan_down ≠ 0 then (env.wwan_down, r.2, true)
    else if env.wg0_down ≠ 0 then (env.wg0_down, r.2, true)
    else
      let after_chrony :=
        if env.stop_chrony2 ≠ 0 then (env.stop_chrony2, true) else (r.1, r.2)
      let after_unbound :=
        if env.stop_unbound2 ≠ 0 then (env.stop_unbound2, true)
        else after_chrony
      (after_unbound.1, after_unbound.2, false)

/-- The outer Phase B while loop: run iterations (env per iteration
supplied by the stream) while exit_requested is clear, returning the
final (status, exit_requested).  A break ends the loop immediately;
the Nat fuel bounds the number of iterations the model runs, returning
the running state when exhausted. -/
def phase_b_loop (envs : Nat → SupEnv) : Nat → Bool → Int → Int × Bool
  | 0, exit0, status => (status, exit0)
  | fuel + 1, exit0, status =>
    if exit0 then (status, exit0)
    else
      let r := phase_b_iteration (envs 0) exit0
      if r.2.2 then (r.1, r.2.1)
      else phase_b_loop (fun n => envs (n + 1)) fuel r.2.1 r.1

/-- A Phase B environment in which every operation succeeds: all
statuses 0, both runtime-settings responses complete, the modem
reaches ONLINE. -/
def all_ok_env : SupEnv where
  reload_link_cache1 := 0
  stop_chrony1 := 0
  stop_unbound1 := 0
  wwan_up := 0
  addr_flush := 0
  dms_init := 0
  set_power_status := 0
  set_power_mode := MM_DMS_OPERATION_MODE_ONLINE
  wds6_init := 0
  set_pref6 := 0
  start_data6 := 0
  get_rt6_status := 0
  rt6_address_present := true
  rt6_gateway_present := true
  apply6 := 0
  wds4_init := 0
  set_pref4 := 0
  start_data4 := 0
  get_rt4_status := 0
  rt4_address_present := true
  rt4_gateway_present := true
  apply4 := 0
  start_unbound := 0
  wg_setconf := 0
  wg0_up := 0
  wg0_routes := 0
  start_chrony := 0
  stop4 := 0
  wds4_shutdown := 0
  stop6 := 0
  wds6_shutdown := 0
  dms_shutdown := 0
  reload_link_cache2 := 0
  wwan_down := 0
  wg0_down := 0
  stop_chrony2 := 0
  stop_unbound2 := 0

/-- C5: a failure of the start-session step (set-IP-family-preference
or start-data-session, folded into mm_start_session) never sets
exit_requested: for either family, when the WDS attach succeeded and
the session start fails, the run function returns the start status
with the exit flag unchanged (given that the WDS detach on the way out
succeeds, which is the only later step of that path); and a Phase B
iteration whose v6 start fails completes its whole cleanup and ends
with exit_requested still false and without breaking the loop, so
Phase B retries after the backoff. -/
theorem start_session_failure_does_not_set_exit :
    ∀ (env : SupEnv) (exit0 : Bool),
    (env.wds6_init = 0 → mm_start_session env.set_pref6 env.start_data6 ≠ 0 →
      env.wds6_shutdown = 0 →
      run_up_ipv6 env exit0 =
        (mm_start_session env.set_pref6 env.start_data6, exit0)) ∧
    (env.wds4_init = 0 → mm_start_session env.set_pref4 env.start_data4 ≠ 0 →
      env.wds4_shutdown = 0 →
      run_up_ipv4 env exit0 =
        (mm_start_session env.set_pref4 env.start_data4, exit0)) ∧
    (env.reload_link_cache1 = 0 → env.stop_chrony1 = 0 →
      env.stop_unbound1 = 0 → env.wwan_up = 0 → env.addr_flush = 0 →
      env.dms_init = 0 → env.set_power_status = 0 →
      env.set_power_mode = MM_DMS_OPERATION_MODE_ONLINE →
      env.wds6_init = 0 → mm_start_session env.set_pref6 env.start_data6 ≠ 0 →
      env.wds6_shutdown = 0 → env.dms_shutdown = 0 →
      env.reload_link_cache2 = 0 → env.wwan_down = 0 → env.wg0_down = 0 →
      env.stop_chrony2 = 0 → env.stop_unbound2 = 0 →
      phase_b_iteration env false =
        (mm_start_session env.set_pref6 env.start_data6, false, false)) := by
  intro env exit0
  refine ⟨?_, ?_, ?_⟩
  · intro h1 h2 h3
    simp [run_up_ipv6, h1, h2, h3]
  · intro h1 h2 h3
    simp [run_up_ipv4, h1, h2, h3]
  · intro ha hb hc hd he hf hg hh h1 h2 h3 h4 h5 h6 h7 h8 h9
    simp [phase_b_iteration, run_up_ipv6, ha, hb, hc, hd, he, hf, hg, hh,
      h1, h2, h3, h4, h5, h6, h7, h8, h9]

/-- Witness for C5: a v6 family-preference failure (status 9) and a v4
start-data-session failure (status 11) each leave the exit flag false,
and the Phase B iteration with the failing v6 start ends with the
start status, exit still false, and the loop not broken. -/
theorem start_session_failure_does_not_set_exit_witness :
    run_up_ipv6 { all_ok_env with set_pref6 := 9 } false = (9, false) ∧
    run_up_ipv4 { all_ok_env with start_data4 := 11 } false = (11, false) ∧
    phase_b_iteration { all_ok_env with set_pref6 := 9 } false =
      (9, false, false) := by
  have h6 := (start_session_failure_does_not_set_exit
    { all_ok_env with set_pref6 := 9 } false).1 rfl (by decide) rfl
  have h4 := (start_session_failure_does_not_set_exit
    { all_ok_env with start_data4 := 11 } false).2.1 rfl (by decide) rfl
  have hb := (start_session_failure_does_not_set_exit
    { all_ok_env with set_pref6 := 9 } false).2.2 rfl rfl rfl rfl rfl rfl rfl
    rfl rfl (by decide) rfl rfl rfl rfl rfl rfl rfl
  exact ⟨h6.trans (by decide), h4.trans (by decide), hb.trans (by decide)⟩

/-- C6: when a Phase B iteration reaches its teardown (every earlier
step succeeded) and the teardown stop of chrony.service or of
unbound.service fails, the iteration ends with exit_requested forced
to true and the failing stop status recorded as the iteration status
(the unbound status when that stop fails, else the chrony status),
without breaking; the outer loop then terminates right after this
iteration, for any remaining fuel and whatever environments later
iterations would have seen. -/
theorem phase_b_teardown_stop_failure_forces_exit :
    ∀ (envs : Nat → SupEnv) (fuel : Nat),
    (envs 0).reload_link_cache1 = 0 → (envs 0).stop_chrony1 = 0 →
    (envs 0).stop_unbound1 = 0 → (envs 0).wwan_up = 0 →
    (envs 0).addr_flush = 0 → (envs 0).dms_init = 0 →
    (envs 0).set_power_status = 0 →
    (envs 0).set_power_mode = MM_DMS_OPERATION_MODE_ONLINE →
    (envs 0).dms_shutdown = 0 → (envs 0).reload_link_cache2 = 0 →
    (envs 0).wwan_down = 0 → (envs 0).wg0_down = 0 →
    ((envs 0).stop_chrony2 ≠ 0 ∨ (envs 0).stop_unbound2 ≠ 0) →
    phase_b_iteration (envs 0) false =
      ((if (envs 0).stop_unbound2 ≠ 0 then (envs 0).stop_unbound2
        else (envs 0).stop_chrony2), true, false) ∧
    (if (envs 0).stop_unbound2 ≠ 0 then (envs 0).stop_unbound2
      else (envs 0).stop_chrony2) ≠ 0 ∧
    phase_b_loop envs (fuel + 2) false 0 =
      ((if (envs 0).stop_unbound2 ≠ 0 then (envs 0).stop_unbound2
        else (envs 0).stop_chrony2), true) := by
  intro envs fuel ha hb hc hd he hf hg hh h1 h2 h3 h4 hstop
  have hiter : phase_b_iteration (envs 0) false =
      ((if (envs 0).stop_unbound2 ≠ 0 then (envs 0).stop_unbound2
        else (envs 0).stop_chrony2), true, false) := by
    by_cases hu : (envs 0).stop_unbound2 ≠ 0
    · simp [phase_b_iteration, ha, hb, hc, hd, he, hf, hg, hh, h1, h2, h3,
        h4, hu]
    · have hcn : (envs 0).stop_chrony2 ≠ 0 := by tauto
      simp [phase_b_iteration, ha, hb, hc, hd, he, hf, hg, hh, h1, h2, h3,
        h4, hu, hcn]
  have hne : (if (envs 0).stop_unbound2 ≠ 0 then (envs 0).stop_unbound2
      else (envs 0).stop_chrony2) ≠ 0 := by
    by_cases hu : (envs 0).stop_unbound2 ≠ 0
    · simp [hu]
    · have hcn : (envs 0).stop_chrony2 ≠ 0 := by tauto
      simp [hu, hcn]
  refine ⟨hiter, hne, ?_⟩
  have htail : phase_b_loop (fun n => envs (n + 1)) (fuel + 1) true
      (if (envs 0).stop_unbound2 ≠ 0 then (envs 0).stop_unbound2
        else (envs 0).stop_chrony2) =
      ((if (envs 0).stop_unbound2 ≠ 0 then (envs 0).stop_unbound2
        else (envs 0).stop_chrony2), true) := by
    simp [phase_b_loop]
  simp [phase_b_loop, hiter, htail]

/-- Witness for C6: every operation succeeds except the teardown stop
of unbound.service (status 7); the iteration ends with status 7, the
exit flag set, no break, and the loop returns (7, true) after that
single iteration. -/
theorem phase_b_teardown_stop_failure_forces_exit_witness :
    phase_b_iteration { all_ok_env with stop_unbound2 := 7 } false =
      (7, true, false) ∧
    phase_b_loop (fun _ => { all_ok_env with stop_unbound2 := 7 }) 2 false 0 =
      (7, true) := by
  have h := phase_b_teardown_stop_failure_forces_exit
    (fun _ => { all_ok_env with stop_unbound2 := 7 }) 0
    rfl rfl rfl rfl rfl rfl rfl rfl rfl rfl rfl rfl (Or.inr (by decide))
  exact ⟨h.1.trans (by decide), h.2.2.trans (by decide)⟩

/-- C7: at the teardown call sites of Phase C, for both families, a
stop-data-session result of eQCWWAN_ERR_QMI_NO_EFFECT is treated
exactly like success (the run function returns the same value as with
a successful stop, so neither exit_requested nor the iteration status
is touched), while any other nonzero stop status both replaces the
status and forces exit_requested. -/
theorem stop_no_effect_treated_as_success :
    ∀ (env : SupEnv) (exit0 : Bool),
    (env.wds4_init = 0 → mm_start_session env.set_pref4 env.start_data4 = 0 →
      env.wds4_shutdown = 0 →
      (run_up_ipv4 { env with stop4 := eQCWWAN_ERR_QMI_NO_EFFECT } exit0 =
        run_up_ipv4 { env with stop4 := eQCWWAN_ERR_NONE } exit0) ∧
      (∀ c : Int, c ≠ eQCWWAN_ERR_NONE → c ≠ eQCWWAN_ERR_QMI_NO_EFFECT →
        run_up_ipv4 { env with stop4 := c } exit0 = (c, true))) ∧
    (env.wds6_init = 0 → mm_start_session env.set_pref6 env.start_data6 = 0 →
      env.wds6_shutdown = 0 →
      (run_up_ipv6 { env with stop6 := eQCWWAN_ERR_QMI_NO_EFFECT } exit0 =
        run_up_ipv6 { env with stop6 := eQCWWAN_ERR_NONE } exit0) ∧
      (∀ c : Int, c ≠ eQCWWAN_ERR_NONE → c ≠ eQCWWAN_ERR_QMI_NO_EFFECT →
        run_up_ipv6 { env with stop6 := c } exit0 = (c, true))) := by
  intro env exit0
  constructor
  · intro h1 h2 h3
    constructor
    · simp [run_up_ipv4, handle_stop_result, h1, h2, h3,
        eQCWWAN_ERR_NONE, eQCWWAN_ERR_QMI_NO_EFFECT]
    · intro c hc1 hc2
      simp [run_up_ipv4, handle_stop_result, h1, h2, h3, hc1, hc2,
        eQCWWAN_ERR_NONE, eQCWWAN_ERR_QMI_NO_EFFECT] at *
      simp [hc1, hc2]
  · intro h1 h2 h3
    constructor
    · simp [run_up_ipv6, handle_stop_result, h1, h2, h3,
        eQCWWAN_ERR_NONE, eQCWWAN_ERR_QMI_NO_EFFECT]
      rfl
    · intro c hc1 hc2
      simp [run_up_ipv6, handle_stop_result, h1, h2, h3, hc1, hc2,
        eQCWWAN_ERR_NONE, eQCWWAN_ERR_QMI_NO_EFFECT] at *
      simp [hc1, hc2]

/-- Witness for C7: against the all-success environment, a
no-effect stop result leaves the run result identical to a successful
stop for both families, while the distinct error statuses 3 and 5
replace the status and force the exit flag. -/
theorem stop_no_effect_treated_as_success_witness :
    run_up_ipv4 { all_ok_env with stop4 := eQCWWAN_ERR_QMI_NO_EFFECT } false =
      run_up_ipv4 { all_ok_env with stop4 := eQCWWAN_ERR_NONE } false ∧
    run_up_ipv4 { all_ok_env with stop4 := 3 } false = (3, true) ∧
    run_up_ipv6 { all_ok_env with stop6 := eQCWWAN_ERR_QMI_NO_EFFECT } false =
      run_up_ipv6 { all_ok_env with stop6 := eQCWWAN_ERR_NONE } false ∧
    run_up_ipv6 { all_ok_env with stop6 := 5 } false = (5, true) := by
  have h := stop_no_effect_treated_as_success all_ok_env false
  have h4 := h.1 rfl (by decide) rfl
  have h6 := h.2 rfl (by decide) rfl
  exact ⟨h4.1, h4.2 3 (by decide) (by decide),
    h6.1, h6.2 5 (by decide) (by decide)⟩

end ModemMonitor
